import Mathlib

/-!
Verification of `unifi_protect_backup/uploader.py`.

A shallow embedding of the uploader core of `unifi-protect-backup`:
the destination resolver (`VideoUploader._generate_file_path`), the
streaming transfer executor (`VideoUploader._upload_video`), the backup
ledger (`VideoUploader._update_database`), and the orchestration loop
(`VideoUploader.start`), together with theorems settling the spec claims.

Python strings are modelled as Lean `String`/`List Char`; instants
(`event.start`, `event.end`) are modelled at integer-second granularity
(`Int`), which is all the claims need; the external rclone process is
modelled by its observable behaviour (exit code, captured stdout/stderr);
the SQLite connection is modelled as committed tables plus the pending
statements of the connection's open implicit transaction.
-/

namespace Uploader

/-- The apostrophe character (U+0027), written by code point. -/
def quoteChar : Char := Char.ofNat 39

/-- Python `re` `\w` in Unicode mode: underscore plus Unicode
alphanumerics (CPython: alphabetic, decimal, digit, or numeric).
Lean's `Char.isAlphanum` covers the ASCII part; the non-ASCII part is
modelled exactly on the Latin-1 range U+00A0-U+00FF: the letters
`ª µ º À-Ö Ø-ö ø-ÿ`, the superscripts `¹ ² ³`, and the vulgar fractions
`¼ ½ ¾`.  Code points above U+00FF (where Python's `\w` likewise
matches word characters, e.g. Greek letters) are outside this
development's modelled alphabet, and the sanitize characterization is
stated for strings within it. -/
def isWordChar (c : Char) : Bool :=
  c.isAlphanum || c = '_' ||
  (let n := c.toNat
   n = 0xAA || n = 0xB2 || n = 0xB3 || n = 0xB5 || n = 0xB9 || n = 0xBA ||
   n = 0xBC || n = 0xBD || n = 0xBE ||
   (0xC0 ≤ n && n ≤ 0xFF && n ≠ 0xD7 && n ≠ 0xF7))

/-- The explicitly listed characters of the character class
`[^\w\-_\.\(\)/ ]` in `_generate_file_path` (besides `\w`):
hyphen, underscore, dot, parentheses, slash, space. -/
def extraChars : List Char := ['-', '_', '.', '(', ')', '/', ' ']

/-- A character survives `re.sub(r'[^\w\-_\.\(\)/ ]', '', ...)` iff it
does NOT match the negated class, i.e. iff it is `\w` or one of the
listed characters. -/
def allowedChar (c : Char) : Bool :=
  isWordChar c || extraChars.contains c

/-- One pass of `re.sub(pattern, '', s)` for the single-character class
pattern `[^\w\-_\.\(\)/ ]`: each character matching the class is replaced
by the empty string, every other character is kept. -/
def reSubDelete : List Char → List Char
  | [] => []
  | c :: cs => if allowedChar c then c :: reSubDelete cs else reSubDelete cs

/-- `file_path = re.sub(r'[^\w\-_\.\(\)/ ]', '', file_path)`
(uploader.py line 144). -/
def sanitize (s : String) : String :=
  (reSubDelete s.data).asString

/-- The character set the spec names for sanitization:
`[A-Za-z0-9\-_.()/ ]` (ASCII alphanumerics plus the listed symbols).
Used only to compare the spec's wording against the code. -/
def specClaimedChar (c : Char) : Bool :=
  c.isAlpha || c.isDigit || extraChars.contains c

/-- Python `str.split(sep)` for a one-character separator, over the
character list: splits at EVERY occurrence of the separator. -/
def splitChars (sep : Char) : List Char → List (List Char)
  | [] => [[]]
  | c :: cs =>
      let r := splitChars sep cs
      if c = sep then [] :: r
      else
        match r with
        | h :: t => (c :: h) :: t
        | [] => [[c]]

/-- `remote, file_path = str(destination).split(":")`
(uploader.py line 101): Python's `.split(":")` with no maxsplit,
followed by unpacking into exactly two variables, which raises
`ValueError` unless the split produced exactly two parts. -/
def splitDestination (s : String) : Except String (String × String) :=
  match splitChars ':' s.data with
  | [r, p] => .ok (r.asString, p.asString)
  | _ => .error "ValueError"

/-- Number of colons in a string. -/
def countColons (s : String) : Nat :=
  (s.data.filter (fun c => c = ':')).length

/-! ## The event data model (§3 of the spec, `pyunifiprotect` `Event`) -/

/-- The fields of a queued `Event` that the uploader reads:
`id`, `type`, `camera_id`, `start`, `end`, `smart_detect_types`.
`startTs`/`endTs` model `event.start`/`event.end` at epoch-second
granularity; `type` models the f-string rendering of the event type. -/
structure Event where
  id : String
  type : String
  cameraId : String
  startTs : Int
  endTs : Int
  smartDetectTypes : List String
  deriving Repr, DecidableEq

/-- `duration_seconds = (event.end - event.start).total_seconds()`
at the model's integer-second granularity. -/
def durationSeconds (e : Event) : Int :=
  e.endTs - e.startTs

/-- `detection_type` (uploader.py lines 137-139):
`f"{event.type} ({' '.join(event.smart_detect_types)})"` when
`event.smart_detect_types` is truthy (non-empty), else `f"{event.type}"`. -/
def detectionType (e : Event) : String :=
  if e.smartDetectTypes ≠ [] then
    e.type ++ " (" ++ String.intercalate " " e.smartDetectTypes ++ ")"
  else
    e.type

/-! ## `str.format` substitution (uploader.py line 143) -/

/-- The errors the uploader core can raise, by Python exception class
(plus the payload the source attaches).  `subprocess` models
`SubprocessException(stdout, stderr, returncode)` as constructed at
uploader.py line 89 (the class itself lives in the `utils` module;
per the spec it carries exactly these three values). -/
inductive PyError where
  | keyError (name : String)
  | attributeError (attr : String)
  | lookupError
  | valueError
  | operationalError
  | subprocess (stdout : String) (stderr : String) (returncode : Int)
  deriving Repr, DecidableEq

/-- A value reachable from the `str.format` context: the raw `Event`
object, a string, or a number. -/
inductive FValue where
  | obj (e : Event)
  | str (s : String)
  | int (n : Int)
  deriving Repr, DecidableEq

/-- Python list repr of a list of strings, e.g. `['person', 'vehicle']`. -/
def pyListRepr (l : List String) : String :=
  let q := String.mk [quoteChar]
  "[" ++ String.intercalate ", " (l.map (fun s => q ++ s ++ q)) ++ "]"

/-- `getattr` on the modelled `Event` fields (the fields of §3 that the
format mini-language can reach); any other attribute name raises
`AttributeError`. -/
def pyGetAttr (v : FValue) (a : String) : Except PyError FValue :=
  match v with
  | .obj e =>
      if a = "id" then .ok (.str e.id)
      else if a = "type" then .ok (.str e.type)
      else if a = "camera_id" then .ok (.str e.cameraId)
      else if a = "start" then .ok (.int e.startTs)
      else if a = "end" then .ok (.int e.endTs)
      else if a = "smart_detect_types" then .ok (.str (pyListRepr e.smartDetectTypes))
      else .error (.attributeError a)
  | _ => .error (.attributeError a)

/-- Rendering of a context value by `str.format` (empty format spec).
The raw `Event` renders through the upstream object's `str`; the claims
never depend on that rendering, so it is modelled by the event's repr
header and id. -/
def renderFValue (v : FValue) : String :=
  match v with
  | .obj e => "Event " ++ e.id
  | .str s => s
  | .int n => toString n

/-- Abstract syntax of the format string `self._file_structure_format`:
literal runs and replacement fields `{name}` / `{name.attr₁.attr₂}`
(Python's format mini-language: an argument name followed by a chain of
attribute accesses). -/
inductive Seg where
  | lit (s : String)
  | field (name : String) (attrs : List String)
  deriving Repr, DecidableEq

/-- The format context built at uploader.py lines 134-141: exactly the
keys `event`, `duration_seconds`, `detection_type`, `camera_name`.
`str.format(**context)` raises `KeyError` for any other argument name. -/
def lookupField (e : Event) (cameraName : String) (name : String) :
    Except PyError FValue :=
  if name = "event" then .ok (.obj e)
  else if name = "duration_seconds" then .ok (.int (durationSeconds e))
  else if name = "detection_type" then .ok (.str (detectionType e))
  else if name = "camera_name" then .ok (.str cameraName)
  else .error (.keyError name)

/-- Fold a chain of attribute accesses over a context value,
propagating the first `AttributeError`. -/
def applyAttrs (v : FValue) : List String → Except PyError FValue
  | [] => .ok v
  | a :: as =>
      match pyGetAttr v a with
      | .error err => .error err
      | .ok v' => applyAttrs v' as

/-- `self._file_structure_format.format(**format_context)`: substitute
each replacement field, left to right, propagating the first error. -/
def formatTemplate (tmpl : List Seg) (e : Event) (cameraName : String) :
    Except PyError String :=
  match tmpl with
  | [] => .ok ""
  | .lit s :: rest =>
      match formatTemplate rest e cameraName with
      | .error err => .error err
      | .ok r => .ok (s ++ r)
  | .field n as :: rest =>
      match lookupField e cameraName n with
      | .error err => .error err
      | .ok v =>
          match applyAttrs v as with
          | .error err => .error err
          | .ok v' =>
              match formatTemplate rest e cameraName with
              | .error err => .error err
              | .ok r => .ok (renderFValue v' ++ r)

/-- `VideoUploader._generate_file_path` (uploader.py lines 110-146) with
the camera name already resolved: substitute the template, sanitize, and
join under the configured rclone destination root
(`pathlib.Path(f"{self._rclone_destination}/{file_path}")`; `Path`
construction keeps the string content for the slash-normalized strings
this development uses). -/
def generateFilePath (tmpl : List Seg) (root : String) (e : Event)
    (cameraName : String) : Except PyError String :=
  match formatTemplate tmpl e cameraName with
  | .error err => .error err
  | .ok fp => .ok (root ++ "/" ++ sanitize fp)

/-! ## The streaming transfer executor (`_upload_video`) -/

/-- The observable behaviour of one run of the external rclone process:
its exit status and the captured output streams (already decoded). -/
structure ProcResult where
  returncode : Int
  stdout : String
  stderr : String
  deriving Repr, DecidableEq

/-- `VideoUploader._upload_video` (uploader.py lines 63-89), given the
spawned process's observable behaviour: exit status `0` succeeds (the
captured streams are only logged); any other status raises
`SubprocessException(stdout.decode(), stderr.decode(), proc.returncode)`. -/
def uploadVideo (proc : ProcResult) : Except PyError Unit :=
  if proc.returncode = 0 then .ok ()
  else .error (.subprocess proc.stdout proc.stderr proc.returncode)

/-! ## The backup ledger (`_update_database`)

The two INSERT statements are built by f-string interpolation
(uploader.py lines 96-98 and 103-105), so what reaches the table is
whatever SQL results from splicing the raw field text between single
quotes.  `execute` is modelled by parsing the interpolated VALUES line
the way sqlite does: single-quoted string literals with the doubled
quote escape, optional spaces, and a `--` line comment that swallows the
rest of the line after the closing parenthesis; a row is accepted only
when it parses and its value count matches the table's column count
(five for `events`, three for `backups`), and a rejected statement
raises with the open transaction left as it was.  The parser accepts
string-literal values only (every value the source interpolates is
quoted); other SQL value forms are modelled as parse errors, and the
interpolated text is treated as the single source line it is (the
interpolations at lines 97 and 104 sit on one line). -/

/-- The scanner states for the VALUES line: before the opening
parenthesis, before a value, inside a quoted literal, directly after a
quote inside a literal (which either doubles into an escaped quote or
ends the value), and after a completed value. -/
inductive ScanMode where
  | expectOpen
  | beforeVal
  | inStr
  | afterQuote
  | afterVal
  deriving Repr, DecidableEq

/-- After the closing parenthesis the statement text must hold only
whitespace or a `--` comment that runs to the end of the line. -/
def lineTailOk : List Char → Bool
  | [] => true
  | c :: cs =>
      if c = ' ' then lineTailOk cs
      else if c = '-' then
        match cs with
        | c2 :: _ => c2 = '-'
        | [] => false
      else false

/-- One left-to-right pass over the VALUES line: collect the parsed
string-literal values of `( lit , lit , ... )`, honouring the doubled
single-quote escape inside literals, or fail on malformed text. -/
def scanValues (mode : ScanMode) (cur : List Char)
    (acc : List (List Char)) : List Char → Option (List (List Char))
  | [] => none
  | c :: cs =>
      match mode with
      | .expectOpen =>
          if c = ' ' then scanValues .expectOpen cur acc cs
          else if c = '(' then scanValues .beforeVal [] acc cs
          else none
      | .beforeVal =>
          if c = ' ' then scanValues .beforeVal cur acc cs
          else if c = quoteChar then scanValues .inStr [] acc cs
          else none
      | .inStr =>
          if c = quoteChar then scanValues .afterQuote cur acc cs
          else scanValues .inStr (cur ++ [c]) acc cs
      | .afterQuote =>
          if c = quoteChar then
            scanValues .inStr (cur ++ [quoteChar]) acc cs
          else if c = ' ' then
            scanValues .afterVal [] (acc ++ [cur]) cs
          else if c = ',' then
            scanValues .beforeVal [] (acc ++ [cur]) cs
          else if c = ')' then
            if lineTailOk cs then some (acc ++ [cur]) else none
          else none
      | .afterVal =>
          if c = ' ' then scanValues .afterVal cur acc cs
          else if c = ',' then scanValues .beforeVal cur acc cs
          else if c = ')' then
            if lineTailOk cs then some acc else none
          else none

/-- The interpolated VALUES line of the INSERT statements at
uploader.py lines 97 and 104: `('{f1}', '{f2}', ...)` with the raw
field text spliced between the quotes. -/
def insertValuesLine (fields : List String) : String :=
  let q := String.mk [quoteChar]
  "(" ++ q ++ String.intercalate (q ++ ", " ++ q) fields ++ q ++ ")"

/-- Modelled `await self._db.execute(...)` for one interpolated
single-row INSERT: parse the VALUES line; on a parse error or a value
count different from the table's column count the statement raises and
nothing joins the transaction; otherwise the row of parsed values
does. -/
def sqlInsert (cols : Nat) (fields : List String) :
    Option (List String) :=
  match scanValues .expectOpen [] [] (insertValuesLine fields).data with
  | none => none
  | some vals =>
      if vals.length = cols then some (vals.map List.asString) else none

/-- A row executed on the connection but not yet committed: the parsed
values destined for `events` or for `backups`. -/
inductive PendingStmt where
  | ev (vals : List String)
  | bk (vals : List String)
  deriving Repr, DecidableEq

/-- The SQLite connection's state: the committed (reader-visible)
`events` and `backups` tables — each row the list of values the
interpolated statement actually inserted — and the pending statements of
the connection's open implicit transaction.  `execute` appends to
`pending`; `commit` makes every pending statement visible at once; a
failed statement or a raised exception leaves `pending` untouched (the
source never rolls back). -/
structure DB where
  events : List (List String)
  backups : List (List String)
  pending : List PendingStmt
  deriving Repr, DecidableEq

/-- The empty database. -/
def emptyDB : DB := ⟨[], [], []⟩

/-- `commit`: every pending statement becomes visible in its table, in
order, and the transaction is closed. -/
def commitDB (db : DB) : DB :=
  { events := db.events ++ db.pending.filterMap
      (fun s => match s with | .ev r => some r | .bk _ => none)
    backups := db.backups ++ db.pending.filterMap
      (fun s => match s with | .ev _ => none | .bk r => some r)
    pending := [] }

/-- `VideoUploader._update_database` (uploader.py lines 91-108):
execute the `events` insert (five interpolated fields), split the
destination on `:`, execute the `backups` insert (three interpolated
fields), then commit.  On any failure the exception propagates with the
connection state as it stands (no rollback), mirroring the source.
Returns the new state and the raised error, if any. -/
def recordBackup (db : DB) (e : Event) (dest : String) :
    DB × Option PyError :=
  match sqlInsert 5 [e.id, e.type, e.cameraId,
      toString e.startTs, toString e.endTs] with
  | none => (db, some .operationalError)
  | some row1 =>
      let db₁ : DB := { db with pending := db.pending ++ [.ev row1] }
      match splitDestination dest with
      | .error _ => (db₁, some .valueError)
      | .ok (remote, path) =>
          match sqlInsert 3 [e.id, remote, path] with
          | none => (db₁, some .operationalError)
          | some row2 =>
              let db₂ : DB := { db₁ with pending :=
                db₁.pending ++ [.bk row2] }
              (commitDB db₂, none)

/-! ## The orchestration loop (`start`) -/

/-- One queue item together with the behaviour of the external process
that would be spawned for it: the `(event, video)` pair yielded by
`video_queue.get()`, and the transfer process's observable outcome. -/
structure Item where
  event : Event
  video : List Nat
  proc : ProcResult
  deriving Repr, DecidableEq

/-- What one loop iteration logs: a success, or a caught exception
logged together with the event id the handler read (`f"... abandoning
event {event.id}"`). -/
inductive LogEntry where
  | uploaded (eventId : String)
  | abandoned (eventId : String) (err : PyError)
  deriving Repr, DecidableEq

/-- The event id a log entry names. -/
def LogEntry.eventId : LogEntry → String
  | .uploaded i => i
  | .abandoned i _ => i

/-- The body of one iteration of `VideoUploader.start` after a
successful dequeue (uploader.py lines 48-61): resolve the camera name,
generate the destination, upload, record; any exception is caught by the
`except` clause, which logs it with the current `event`'s id and falls
through to the next iteration.  `resolve` models the external
`get_camera_name` collaborator. -/
def processItem (resolve : String → Except PyError String)
    (tmpl : List Seg) (root : String) (db : DB) (it : Item) :
    DB × LogEntry :=
  match resolve it.event.cameraId with
  | .error err => (db, .abandoned it.event.id err)
  | .ok cameraName =>
      match generateFilePath tmpl root it.event cameraName with
      | .error err => (db, .abandoned it.event.id err)
      | .ok dest =>
          match uploadVideo it.proc with
          | .error err => (db, .abandoned it.event.id err)
          | .ok _ =>
              match recordBackup db it.event dest with
              | (db', some err) => (db', .abandoned it.event.id err)
              | (db', none) => (db', .uploaded it.event.id)

/-- The `while True` loop of `VideoUploader.start` run over a finite
queue prefix, every dequeue succeeding: fold `processItem` over the
items, collecting the log. -/
def runLoop (resolve : String → Except PyError String)
    (tmpl : List Seg) (root : String) :
    List Item → DB → DB × List LogEntry
  | [], db => (db, [])
  | it :: rest, db =>
      let (db', entry) := processItem resolve tmpl root db it
      let (dbF, logs) := runLoop resolve tmpl root rest db'
      (dbF, entry :: logs)

/-- One dequeue outcome: `video_queue.get()` yields an item or raises. -/
inductive DequeueOutcome where
  | got (it : Item)
  | raised (err : PyError)
  deriving Repr, DecidableEq

/-- The loop terminating abnormally: an exception escaped the
`while True` loop, ending `start`. -/
inductive LoopCrash where
  | unboundLocalError
  deriving Repr, DecidableEq

/-- `VideoUploader.start` with the dequeue itself allowed to raise,
tracking Python's function-local binding of `event` (uploader.py line
47): the `except` handler (line 60) reads `event.id`, so if the dequeue
raised, the handler reads whatever the PREVIOUS iteration bound — and on
the first iteration, where `event` was never bound, the handler itself
raises `UnboundLocalError`, which the `try` does not cover, terminating
the loop. -/
def runLoopD (resolve : String → Except PyError String)
    (tmpl : List Seg) (root : String) :
    List DequeueOutcome → Option Event → DB →
    Except LoopCrash (DB × List LogEntry)
  | [], _, db => .ok (db, [])
  | .raised _ :: _, none, _ => .error .unboundLocalError
  | .raised err :: rest, some prev, db =>
      match runLoopD resolve tmpl root rest (some prev) db with
      | .error c => .error c
      | .ok (dbF, logs) =>
          .ok (dbF, .abandoned prev.id err :: logs)
  | .got it :: rest, _, db =>
      let (db', entry) := processItem resolve tmpl root db it
      match runLoopD resolve tmpl root rest (some it.event) db' with
      | .error c => .error c
      | .ok (dbF, logs) => .ok (dbF, entry :: logs)

/-! ## Derived predicates about database states -/

/-- No orphan event record: every committed `events` row has a
committed `backups` row with the same event id (the first column of
each table). -/
def noOrphan (db : DB) : Prop :=
  ∀ r ∈ db.events, ∃ b ∈ db.backups, b.head? = r.head?

/-! ## Concrete scenario data (spec §8) -/

/-- Scenario A event: `type="motion"`, no smart-detection labels. -/
def scenarioEventA : Event :=
  ⟨"e1", "motion", "cam123", 100, 400, []⟩

/-- Scenario B event: `type="motion"`, labels `["person","vehicle"]`. -/
def scenarioEventB : Event :=
  ⟨"e2", "motion", "cam123", 100, 400, ["person", "vehicle"]⟩

/-- A camera-name resolver that always answers `"Front Door"`. -/
def scenarioResolve : String → Except PyError String :=
  fun _ => .ok "Front Door"

/-- The template `"{camera_name}/{detection_type}"`. -/
def scenarioTemplate : List Seg :=
  [.field "camera_name" [], .lit "/", .field "detection_type" []]

/-- Scenario D first item: its transfer process exits 1 with stderr
`"disk full"`. -/
def scenarioItemFail : Item :=
  ⟨scenarioEventA, [], ⟨1, "", "disk full"⟩⟩

/-- Scenario D second item: its transfer process exits 0. -/
def scenarioItemOk : Item :=
  ⟨scenarioEventB, [], ⟨0, "", ""⟩⟩

/-! ## Lemmas about sanitization -/

theorem reSubDelete_eq_filter (l : List Char) :
    reSubDelete l = l.filter allowedChar := by
  induction l with
  | nil => rfl
  | cons c cs ih =>
      by_cases h : allowedChar c = true
      · simp [reSubDelete, h, List.filter_cons, ih]
      · simp only [Bool.not_eq_true] at h
        simp [reSubDelete, h, List.filter_cons, ih]

theorem sanitize_data (s : String) :
    (sanitize s).data = s.data.filter allowedChar := by
  simp [sanitize, reSubDelete_eq_filter, List.asString]

theorem mem_sanitize_allowed {s : String} {c : Char}
    (h : c ∈ (sanitize s).data) : allowedChar c = true := by
  rw [sanitize_data] at h
  exact (List.mem_filter.mp h).2

/-! ## Lemmas about the destination split -/

theorem splitChars_ne_nil (sep : Char) (l : List Char) :
    splitChars sep l ≠ [] := by
  cases l with
  | nil => simp [splitChars]
  | cons c cs =>
      by_cases h : c = sep
      · simp [splitChars, h]
      · simp only [splitChars, if_neg h]
        cases splitChars sep cs with
        | nil => simp
        | cons h' t' => simp

theorem splitChars_length (sep : Char) (l : List Char) :
    (splitChars sep l).length = (l.filter (fun c => c = sep)).length + 1 := by
  induction l with
  | nil => simp [splitChars]
  | cons c cs ih =>
      by_cases h : c = sep
      · simp [splitChars, h, List.filter_cons, ih]
      · simp only [splitChars, if_neg h, List.filter_cons]
        have hdec : ¬(decide (c = sep) = true) := by simpa using h
        rw [if_neg hdec]
        cases hsc : splitChars sep cs with
        | nil => exact absurd hsc (splitChars_ne_nil sep cs)
        | cons h' t' =>
            simp only [List.length_cons]
            have := ih
            rw [hsc] at this
            simpa using this

theorem splitChars_no_sep {sep : Char} {l : List Char}
    (h : sep ∉ l) : splitChars sep l = [l] := by
  induction l with
  | nil => rfl
  | cons c cs ih =>
      simp only [List.mem_cons, not_or] at h
      have hcs := ih h.2
      simp only [splitChars, hcs]
      rw [if_neg (fun hc => h.1 hc.symm)]

theorem splitChars_append_single {sep : Char} {a b : List Char}
    (ha : sep ∉ a) (hb : sep ∉ b) :
    splitChars sep (a ++ sep :: b) = [a, b] := by
  induction a with
  | nil =>
      simp [splitChars, splitChars_no_sep hb]
  | cons c cs ih =>
      simp only [List.mem_cons, not_or] at ha
      have hcs := ih ha.2
      simp only [List.cons_append, splitChars, List.append_eq, hcs]
      rw [if_neg (fun hc => ha.1 hc.symm)]

theorem splitDestination_error_of_count_ne_one {s : String}
    (h : countColons s ≠ 1) : splitDestination s = .error "ValueError" := by
  have hl : (splitChars ':' s.data).length ≠ 2 := by
    rw [splitChars_length]
    unfold countColons at h
    omega
  unfold splitDestination
  cases hsp : splitChars ':' s.data with
  | nil => rfl
  | cons x t =>
      cases t with
      | nil => rfl
      | cons y t2 =>
          cases t2 with
          | nil => rw [hsp] at hl; simp at hl
          | cons z t3 => rfl

theorem colon_decomp {l : List Char}
    (h : (l.filter (fun c => c = ':')).length = 1) :
    ∃ a b, l = a ++ ':' :: b ∧ ':' ∉ a ∧ ':' ∉ b := by
  induction l with
  | nil => simp at h
  | cons c cs ih =>
      by_cases hc : c = ':'
      · subst hc
        refine ⟨[], cs, rfl, by simp, ?_⟩
        rw [List.filter_cons] at h
        simp only [decide_True, if_true, List.length_cons] at h
        have h0 : cs.filter (fun c => c = ':') = [] := by
          rw [← List.length_eq_zero]
          omega
        intro hmem
        have hm : ':' ∈ cs.filter (fun c => c = ':') :=
          List.mem_filter.mpr ⟨hmem, by simp⟩
        rw [h0] at hm
        simp at hm
      · rw [List.filter_cons, if_neg (by simpa using hc)] at h
        obtain ⟨a, b, hl, ha, hb⟩ := ih h
        exact ⟨c :: a, b, by rw [hl]; rfl,
          by simp only [List.mem_cons, not_or]
             exact ⟨fun he => hc he.symm, ha⟩, hb⟩

theorem splitDestination_ok_of_count_one {s : String}
    (h : countColons s = 1) :
    ∃ r p, splitDestination s = .ok (r, p) ∧ s = r ++ ":" ++ p ∧
      countColons r = 0 ∧ countColons p = 0 := by
  obtain ⟨a, b, hl, ha, hb⟩ := colon_decomp h
  refine ⟨a.asString, b.asString, ?_, ?_, ?_, ?_⟩
  · unfold splitDestination
    rw [hl, splitChars_append_single ha hb]
  · apply String.ext
    simp only [String.data_append, hl, List.asString]
    simp
  · unfold countColons
    simp only [List.asString]
    rw [List.length_eq_zero, List.filter_eq_nil_iff]
    intro c hc
    simp only [decide_eq_true_eq]
    intro he
    exact ha (he ▸ hc)
  · unfold countColons
    simp only [List.asString]
    rw [List.length_eq_zero, List.filter_eq_nil_iff]
    intro c hc
    simp only [decide_eq_true_eq]
    intro he
    exact hb (he ▸ hc)

/-! ## Claim theorems -/

/-- The single quote as a one-character string, for building raw field
text. -/
def qs : String := String.mk [quoteChar]

/-- An event id shaped like a SQL injection: the raw text
`z','t','c','1','2')--`.  Interpolated into the five-column `events`
insert it closes the VALUES list after five values and comments out the
rest of the line — a valid statement that executes; interpolated into
the three-column `backups` insert the same five values are two too
many, so that execute raises. -/
def injectionId : String :=
  "z" ++ qs ++ "," ++ qs ++ "t" ++ qs ++ "," ++ qs ++ "c" ++ qs ++ "," ++
    qs ++ "1" ++ qs ++ "," ++ qs ++ "2" ++ qs ++ ")--"

/-- An event carrying the injection-shaped id, otherwise ordinary. -/
def injectionEvent : Event :=
  ⟨injectionId, "motion", "cam123", 100, 400, []⟩

/-- A queue item for the injection event whose transfer succeeds. -/
def injectionItem : Item :=
  ⟨injectionEvent, [], ⟨0, "", ""⟩⟩

instance (db : DB) : Decidable (noOrphan db) := by
  unfold noOrphan
  infer_instance

/-- C1: code bug.  The claim requires that a recording failing partway
never makes a partial write visible to other readers, in any reachable
state.  But the inserts are built by f-string interpolation: an
injection-shaped event id makes the `events` insert execute
successfully (its `)--` tail closes the VALUES list and comments out
the rest of the line) while the `backups` insert fails (five values for
the three-column table); nothing is rolled back, so the next processed
item's commit publishes the orphan `events` row.  Running the injection
item and then a normal item from an empty database commits an `events`
row `z` with no matching `backups` row — exactly the state the claim
denies. -/
theorem ledger_orphan_reachable :
    (runLoop scenarioResolve scenarioTemplate "remote:backups"
      [injectionItem, scenarioItemOk] emptyDB).1 =
      ⟨[["z", "t", "c", "1", "2"],
        ["e2", "motion", "cam123", "100", "400"]],
       [["e2", "remote", "backups/Front Door/motion (person vehicle)"]],
       []⟩ ∧
    ¬ noOrphan (runLoop scenarioResolve scenarioTemplate "remote:backups"
      [injectionItem, scenarioItemOk] emptyDB).1 := by
  constructor
  · rfl
  · decide

/-- C3 counterexample: The claim says sanitization strips every
character outside the ASCII set `[A-Za-z0-9\-_.()/ ]`, including
non-ASCII letters.  The code's regex uses Unicode `\w`: on the input
`"é"` the letter `é` — which is outside the claimed ASCII set — is kept,
not stripped. -/
theorem sanitize_keeps_non_ascii_letter :
    sanitize "é" = "é" ∧ specClaimedChar 'é' = false := by
  constructor
  · decide
  · decide

/-- C3 amended: Sanitization removes exactly the characters outside
Python's Unicode `\w` class together with `- _ . ( ) /` and space:
for every string over the modelled alphabet (code points up to U+00FF,
where `isWordChar` matches `\w` exactly), every character in that set
is kept (in order) and every character outside it is removed — and the
set is larger than the spec's ASCII one, since non-ASCII word
characters such as the letter `é` and the superscript `²` survive. -/
theorem sanitize_removes_non_word_chars (s : String)
    (_halpha : ∀ c ∈ s.data, c.toNat ≤ 0xFF) :
    (sanitize s).data = s.data.filter allowedChar ∧
    (∀ c ∈ s.data, allowedChar c = true → c ∈ (sanitize s).data) ∧
    (∀ c ∈ (sanitize s).data, allowedChar c = true) ∧
    allowedChar 'é' = true ∧ allowedChar '²' = true := by
  refine ⟨sanitize_data s, ?_, fun c hc => mem_sanitize_allowed hc,
    by decide, by decide⟩
  intro c hc hal
  rw [sanitize_data]
  exact List.mem_filter.mpr ⟨hc, hal⟩

/-- Witness for `sanitize_removes_non_word_chars` at the concrete input
`"aé:²b"`. -/
theorem sanitize_removes_non_word_chars_witness :
    (∀ c ∈ "aé:²b".data, c.toNat ≤ 0xFF) ∧
    (sanitize "aé:²b").data = "aé:²b".data.filter allowedChar ∧
    '²' ∈ (sanitize "aé:²b").data ∧
    allowedChar 'é' = true :=
  ⟨by decide,
   (sanitize_removes_non_word_chars "aé:²b" (by decide)).1,
   (sanitize_removes_non_word_chars "aé:²b" (by decide)).2.1 '²'
     (by decide) (by decide),
   (sanitize_removes_non_word_chars "aé:²b" (by decide)).2.2.2.1⟩

/-- C4: The transfer executor classifies the external process's exit
status: a non-zero status raises `SubprocessException` carrying the
captured stdout text, stderr text, and the exit code verbatim; a zero
status succeeds. -/
theorem uploadVideo_exit_code (p : ProcResult) :
    (p.returncode ≠ 0 →
      uploadVideo p = .error (.subprocess p.stdout p.stderr p.returncode)) ∧
    (p.returncode = 0 → uploadVideo p = .ok ()) := by
  constructor
  · intro h
    simp [uploadVideo, h]
  · intro h
    simp [uploadVideo, h]

/-- Witness for `uploadVideo_exit_code`: exit code 1 with stderr
`"disk full"` yields the error carrying exactly those values; exit code
0 succeeds. -/
theorem uploadVideo_exit_code_witness :
    uploadVideo ⟨1, "", "disk full"⟩ = .error (.subprocess "" "disk full" 1) ∧
    uploadVideo ⟨0, "out", "err"⟩ = .ok () :=
  ⟨(uploadVideo_exit_code ⟨1, "", "disk full"⟩).1 (by decide),
   (uploadVideo_exit_code ⟨0, "out", "err"⟩).2 rfl⟩

/-- C6 counterexample: The claim says every destination with at
least one `:` splits into two parts at the first colon, even when the
path part contains further colons.  The code's `.split(":")` has no
maxsplit, so unpacking `remote, file_path = ...` raises `ValueError` on
`"remote:a:b"`, which contains a colon in its path part. -/
theorem splitDestination_multi_colon_fails :
    splitDestination "remote:a:b" = .error "ValueError" ∧
    1 ≤ countColons "remote:a:b" := by
  constructor
  · rfl
  · decide

/-- C6 amended: The destination split succeeds exactly for
destinations containing exactly one `:`: it then yields the part before
and the part after the colon (each colon-free); any other number of
colons raises `ValueError`. -/
theorem splitDestination_single_colon (s : String) :
    (countColons s = 1 →
      ∃ r p, splitDestination s = .ok (r, p) ∧ s = r ++ ":" ++ p ∧
        countColons r = 0 ∧ countColons p = 0) ∧
    (countColons s ≠ 1 → splitDestination s = .error "ValueError") :=
  ⟨fun h => splitDestination_ok_of_count_one h,
   fun h => splitDestination_error_of_count_ne_one h⟩

/-- Witness for `splitDestination_single_colon` at `"remote:path/file"`
(one colon) and `"nocolon"` (none). -/
theorem splitDestination_single_colon_witness :
    (∃ r p, splitDestination "remote:path/file" = .ok (r, p) ∧
      "remote:path/file" = r ++ ":" ++ p ∧
      countColons r = 0 ∧ countColons p = 0) ∧
    splitDestination "nocolon" = .error "ValueError" :=
  ⟨(splitDestination_single_colon "remote:path/file").1 (by decide),
   (splitDestination_single_colon "nocolon").2 (by decide)⟩

/-- A format-context lookup outside the four provided keys raises
`KeyError` with that key. -/
theorem lookupField_unknown (e : Event) (cn : String) {n : String}
    (h : n ∉ ["event", "duration_seconds", "detection_type", "camera_name"]) :
    lookupField e cn n = .error (.keyError n) := by
  simp only [List.mem_cons, List.not_mem_nil, or_false, not_or] at h
  obtain ⟨h1, h2, h3, h4⟩ := h
  unfold lookupField
  rw [if_neg h1, if_neg h2, if_neg h3, if_neg h4]

/-- A template containing a replacement field whose top-level name is
outside the enumerated set makes the whole substitution fail. -/
theorem formatTemplate_bad_field {n : String} {as : List String}
    (tmpl : List Seg) (hmem : Seg.field n as ∈ tmpl)
    (hbad : n ∉ ["event", "duration_seconds", "detection_type", "camera_name"])
    (e : Event) (cn : String) :
    ∃ err, formatTemplate tmpl e cn = .error err := by
  induction tmpl with
  | nil => simp at hmem
  | cons seg rest ih =>
      rcases List.mem_cons.mp hmem with heq | htail
      · subst heq
        refine ⟨.keyError n, ?_⟩
        unfold formatTemplate
        rw [lookupField_unknown e cn hbad]
      · obtain ⟨err, herr⟩ := ih htail
        cases seg with
        | lit s =>
            refine ⟨err, ?_⟩
            simp only [formatTemplate, herr]
        | field m bs =>
            cases hlf : lookupField e cn m with
            | error err2 =>
                refine ⟨err2, ?_⟩
                simp only [formatTemplate, hlf]
            | ok v =>
                cases hat : applyAttrs v bs with
                | error err2 =>
                    refine ⟨err2, ?_⟩
                    simp only [formatTemplate, hlf, hat]
                | ok v' =>
                    refine ⟨err, ?_⟩
                    simp only [formatTemplate, hlf, hat, herr]

/-- C7 counterexample: The claim says no attribute access beyond
the four enumerated fields is possible from the template string.  But
`str.format`'s mini-language allows `{event.camera_id}`: the
substitution succeeds and renders the event's `camera_id` attribute. -/
theorem template_attribute_access_allowed :
    formatTemplate [.field "event" ["camera_id"]] scenarioEventA
      "Front Door" = .ok "cam123" := rfl

/-- C7 amended: The TOP-LEVEL template fields are the closed set
`{event, duration_seconds, detection_type, camera_name}`: a template
referencing a top-level field outside it fails (with `KeyError`, the
spec's `TemplateError`), and the failure propagates to the loop, which
drops the item with no retry and no database change — but attribute
access on the four provided fields is permitted by the substitution
engine. -/
theorem template_unknown_field_fails (tmpl : List Seg)
    (h : ∃ n as, Seg.field n as ∈ tmpl ∧
      n ∉ ["event", "duration_seconds", "detection_type", "camera_name"]) :
    (∀ (e : Event) (cn : String),
      ∃ err, formatTemplate tmpl e cn = .error err) ∧
    (∀ (resolve : String → Except PyError String) (root : String)
        (db : DB) (it : Item) (cn : String),
      resolve it.event.cameraId = .ok cn →
      ∃ err, processItem resolve tmpl root db it =
        (db, .abandoned it.event.id err)) := by
  obtain ⟨n, as, hmem, hbad⟩ := h
  have hfmt := fun e cn => formatTemplate_bad_field tmpl hmem hbad e cn
  refine ⟨hfmt, ?_⟩
  intro resolve root db it cn hres
  obtain ⟨err, herr⟩ := hfmt it.event cn
  have hgen : generateFilePath tmpl root it.event cn = .error err := by
    unfold generateFilePath
    rw [herr]
  refine ⟨err, ?_⟩
  unfold processItem
  split
  · rename_i err2 heq
    rw [hres] at heq
    cases heq
  · rename_i cameraName heq
    rw [hres] at heq
    injection heq with hcn
    subst hcn
    split
    · rename_i err2 heq2
      rw [hgen] at heq2
      injection heq2 with herr2
      subst herr2
      rfl
    · rename_i dest heq2
      rw [hgen] at heq2
      cases heq2

/-- Witness for `template_unknown_field_fails` at the concrete template
`"{bogus}"`. -/
theorem template_unknown_field_fails_witness :
    ∃ err, formatTemplate [Seg.field "bogus" []] scenarioEventA
      "Front Door" = .error err :=
  (template_unknown_field_fails [Seg.field "bogus" []]
    ⟨"bogus", [], by decide, by decide⟩).1 scenarioEventA "Front Door"

/-- C8: `detection_type` is the event type alone when there are no
smart-detection labels, and `"{type} ({space-joined labels})"`
otherwise; concretely, scenario A resolves to the configured root joined
with `"/Front Door/motion"`, and scenario B renders `detection_type` as
`"motion (person vehicle)"`. -/
theorem detectionType_scenarios :
    (∀ e : Event,
      (e.smartDetectTypes = [] → detectionType e = e.type) ∧
      (e.smartDetectTypes ≠ [] → detectionType e =
        e.type ++ " (" ++ String.intercalate " " e.smartDetectTypes ++ ")")) ∧
    (∀ root : String,
      generateFilePath scenarioTemplate root scenarioEventA "Front Door" =
        .ok (root ++ "/Front Door/motion")) ∧
    detectionType scenarioEventB = "motion (person vehicle)" := by
  refine ⟨fun e => ⟨fun h => ?_, fun h => ?_⟩, fun root => ?_, by decide⟩
  · simp [detectionType, h]
  · simp [detectionType, h]
  · show generateFilePath scenarioTemplate root scenarioEventA "Front Door" =
      .ok (root ++ "/Front Door/motion")
    unfold generateFilePath
    rw [show formatTemplate scenarioTemplate scenarioEventA "Front Door" =
      Except.ok "Front Door/motion" from rfl]
    show Except.ok (root ++ "/" ++ sanitize "Front Door/motion") =
      Except.ok (root ++ "/Front Door/motion")
    rw [show sanitize "Front Door/motion" = "Front Door/motion" from rfl]
    refine congrArg Except.ok (String.ext ?_)
    rw [String.data_append, String.data_append, String.data_append,
      List.append_assoc]
    exact congrArg (fun l => root.data ++ l) rfl

/-- Witness for `detectionType_scenarios` at the concrete scenario
events and a concrete root. -/
theorem detectionType_scenarios_witness :
    detectionType scenarioEventA = "motion" ∧
    detectionType scenarioEventB = "motion (person vehicle)" ∧
    generateFilePath scenarioTemplate "remote:backups" scenarioEventA
      "Front Door" = .ok "remote:backups/Front Door/motion" :=
  ⟨(detectionType_scenarios.1 scenarioEventA).1 rfl,
   (detectionType_scenarios.1 scenarioEventB).2 (by decide),
   detectionType_scenarios.2.1 "remote:backups"⟩

/-- C9: The destination resolver is deterministic: two invocations
with the same event, template, root, and resolved camera name produce
the identical result. -/
theorem generateFilePath_deterministic (t₁ t₂ : List Seg)
    (r₁ r₂ : String) (e₁ e₂ : Event) (c₁ c₂ : String)
    (ht : t₁ = t₂) (hr : r₁ = r₂) (he : e₁ = e₂) (hc : c₁ = c₂) :
    generateFilePath t₁ r₁ e₁ c₁ = generateFilePath t₂ r₂ e₂ c₂ := by
  subst ht
  subst hr
  subst he
  subst hc
  rfl

/-- Every loop iteration's log entry names the id of the event the
iteration dequeued, whatever the outcome. -/
theorem processItem_eventId (resolve : String → Except PyError String)
    (tmpl : List Seg) (root : String) (db : DB) (it : Item) :
    (processItem resolve tmpl root db it).2.eventId = it.event.id := by
  unfold processItem
  split
  · rfl
  · split
    · rfl
    · split
      · rfl
      · split
        · rfl
        · rfl

/-- The database produced by the two-item scenario D run: only the
second item's pair of rows, committed. -/
def scenarioFinalDB : DB :=
  ⟨[["e2", "motion", "cam123", "100", "400"]],
   [["e2", "remote", "backups/Front Door/motion (person vehicle)"]],
   []⟩

/-- C2: With every dequeue succeeding, the loop never crashes: run
over any queue prefix it produces exactly one log entry per item, in
order, each carrying that item's own event id — every per-item error
(resolving, transferring, or recording) is caught at the loop boundary
and the loop continues with the next item, from the first iteration on. -/
theorem loop_isolates_item_failures
    (resolve : String → Except PyError String) (tmpl : List Seg)
    (root : String) (items : List Item) (db : DB) (last : Option Event) :
    runLoopD resolve tmpl root (items.map .got) last db =
      .ok (runLoop resolve tmpl root items db) ∧
    (runLoop resolve tmpl root items db).2.map LogEntry.eventId =
      items.map (fun it => it.event.id) := by
  induction items generalizing db last with
  | nil => exact ⟨rfl, rfl⟩
  | cons it rest ih =>
      cases hpi : processItem resolve tmpl root db it with
      | mk db' entry =>
          have ihr := ih db' (some it.event)
          have hid : entry.eventId = it.event.id := by
            have h := processItem_eventId resolve tmpl root db it
            rw [hpi] at h
            exact h
          cases hrl : runLoop resolve tmpl root rest db' with
          | mk dbF logs =>
              rw [hrl] at ihr
              constructor
              · simp only [List.map_cons, runLoopD, runLoop, hpi, ihr.1, hrl]
              · simp only [List.map_cons, runLoop, hpi, hrl]
                simp only [List.map_cons, hid, List.cons.injEq, true_and]
                exact ihr.2

/-- C5: For an item whose transfer process exits nonzero, the loop
iteration leaves the database — committed rows and pending statements —
untouched (the ledger operation is never reached), and the loop goes on
to process the remaining queue; in the concrete two-item scenario D,
only the second item produces ledger rows. -/
theorem transfer_failure_no_ledger
    (resolve : String → Except PyError String) (tmpl : List Seg)
    (root : String) (db : DB) (it : Item) (rest : List Item)
    (h : it.proc.returncode ≠ 0) :
    (processItem resolve tmpl root db it).1 = db ∧
    runLoop resolve tmpl root (it :: rest) db =
      ((runLoop resolve tmpl root rest db).1,
        (processItem resolve tmpl root db it).2 ::
          (runLoop resolve tmpl root rest db).2) ∧
    runLoop scenarioResolve scenarioTemplate "remote:backups"
      [scenarioItemFail, scenarioItemOk] emptyDB =
      (scenarioFinalDB,
       [.abandoned "e1" (.subprocess "" "disk full" 1), .uploaded "e2"]) := by
  have hup : uploadVideo it.proc =
      .error (.subprocess it.proc.stdout it.proc.stderr it.proc.returncode) := by
    simp [uploadVideo, h]
  have hdb : (processItem resolve tmpl root db it).1 = db := by
    unfold processItem
    split
    · rfl
    · split
      · rfl
      · rw [hup]
  refine ⟨hdb, ?_, by rfl⟩
  cases hpi : processItem resolve tmpl root db it with
  | mk db' entry =>
      have hdb' : db' = db := by
        rw [hpi] at hdb
        exact hdb
      subst hdb'
      simp only [runLoop, hpi]

/-- Witness for `transfer_failure_no_ledger` at scenario D's failing
item. -/
theorem transfer_failure_no_ledger_witness :
    (processItem scenarioResolve scenarioTemplate "remote:backups"
      emptyDB scenarioItemFail).1 = emptyDB :=
  (transfer_failure_no_ledger scenarioResolve scenarioTemplate
    "remote:backups" emptyDB scenarioItemFail [scenarioItemOk]
    (by decide)).1

/-- C10: The loop's error handler reads the per-iteration `event`
binding, which is unbound when the dequeue itself raises on the first
iteration: the handler then raises `UnboundLocalError` and the loop
terminates; and when a dequeue raises on a later iteration, the handler
logs the PREVIOUS item's event id (here `"e2"`) against the dequeue
failure. -/
theorem first_dequeue_error_crashes_loop :
    runLoopD scenarioResolve scenarioTemplate "remote:backups"
      [.raised .lookupError] none emptyDB = .error .unboundLocalError ∧
    runLoopD scenarioResolve scenarioTemplate "remote:backups"
      [.got scenarioItemOk, .raised .lookupError] none emptyDB =
      .ok (scenarioFinalDB,
        [.uploaded "e2", .abandoned "e2" .lookupError]) := by
  constructor
  · rfl
  · rfl

/-- Witness for `generateFilePath_deterministic` at concrete inputs. -/
theorem generateFilePath_deterministic_witness :
    generateFilePath scenarioTemplate "remote:backups" scenarioEventA
      "Front Door" =
    generateFilePath scenarioTemplate "remote:backups" scenarioEventA
      "Front Door" :=
  generateFilePath_deterministic scenarioTemplate scenarioTemplate
    "remote:backups" "remote:backups" scenarioEventA scenarioEventA
    "Front Door" "Front Door" rfl rfl rfl rfl

end Uploader
